import Mathlib

set_option maxRecDepth 100000

/-!
Shallow embedding of the PAOS (Personal Activity Optimization System)
scoring, recommendation, experiment, benchmark and insight engines,
together with proofs settling the specification claims.

Conventions used throughout the embedding:
* pandas/NumPy missing values (`NaN`/`NA`/`None`/`NaT`) are modelled as
  `Option` `none`; present numeric cells are exact rationals (`ℚ`).
* calendar dates are modelled as integer day numbers (days since the
  epoch 1970-01-01, which is a Thursday); `pd.Timestamp.weekday`
  (Monday = 0 … Sunday = 6) is then `(d + 3) % 7`.
* Python `int(x)` on a float is truncation toward zero, modelled by
  `py_int` on `ℚ`.
* a dataframe is a list of row structures plus explicit flags/lists
  recording which optional columns exist (absence of a whole column is
  distinct from a missing cell).
-/

/-- Python `int(x)` applied to a (finite) float: truncation toward zero.
`Int` division in Lean is T-division, so `num / den` truncates toward zero. -/
def py_int (q : ℚ) : ℤ := Int.tdiv q.num (q.den : ℤ)

/-- Arithmetic mean of a list of rationals; `none` on the empty list
(NumPy `np.mean([])` is `NaN`). -/
def rat_mean (xs : List ℚ) : Option ℚ :=
  if xs.length = 0 then none else some (xs.sum / (xs.length : ℚ))

/-! ### paos/config.py -/

/-- `STEP_BANDS` from `paos/config.py`: step scoring (0-50). -/
def STEP_BANDS : List (ℤ × ℤ × ℕ) :=
  [(0, 4999, 10), (5000, 6999, 25), (7000, 9999, 35), (10000, 10 ^ 9, 50)]

/-- `DURATION_BANDS` from `paos/config.py`: exercise scoring (0-50). -/
def DURATION_BANDS : List (ℤ × ℤ × ℕ) :=
  [(0, 19, 10), (20, 39, 25), (40, 60, 35), (61, 10 ^ 9, 45)]

/-- `HR_MULTIPLIERS` from `paos/config.py` (an association list in
declaration order standing for the Python dict). -/
def HR_MULTIPLIERS : List (String × ℚ) :=
  [("light", 1/2), ("moderate", 1), ("intense", 3/2), ("peak", 2), ("unknown", 1)]

/-- `STATUS_BANDS` from `paos/config.py`. -/
def STATUS_BANDS : List (ℤ × ℤ × String) :=
  [(0, 25, "Sedentary"), (26, 50, "Lightly Active"),
   (51, 75, "Active"), (76, 100, "Very Active")]

/-! ### paos/transform/scoring.py -/

/-- The `for lo, hi, pts in BANDS: if lo <= s <= hi: return pts` loop shared
by `score_steps` and `base_duration_points`; falls through to `0`. -/
def band_lookup : List (ℤ × ℤ × ℕ) → ℤ → ℕ
  | [], _ => 0
  | (lo, hi, pts) :: rest, s => if lo ≤ s ∧ s ≤ hi then pts else band_lookup rest s

/-- `score_steps` from `paos/transform/scoring.py`: `pd.isna(steps)` gives 0,
otherwise `int(steps)` is looked up in `STEP_BANDS`. -/
def score_steps (steps : Option ℚ) : ℕ :=
  match steps with
  | none => 0
  | some q => band_lookup STEP_BANDS (py_int q)

/-- `base_duration_points` from `paos/transform/scoring.py`. -/
def base_duration_points (minutes : Option ℚ) : ℕ :=
  match minutes with
  | none => 0
  | some q => band_lookup DURATION_BANDS (py_int q)

/-- ASCII lower-casing of one character (`str.lower` restricted to the
ASCII vocabulary the pipeline's categorical strings use). -/
def py_lower_char (c : Char) : Char :=
  if 65 ≤ c.toNat ∧ c.toNat ≤ 90 then Char.ofNat (c.toNat + 32) else c

/-- Python `str.strip` whitespace set (the ASCII part). -/
def py_ws (c : Char) : Bool := c ∈ [' ', '\t', '\n', '\r', '\x0b', '\x0c']

/-- Python `s.strip().lower()`, the normalization the code applies to
categorical cells (flags, zones, phases). -/
def py_strip_lower (s : String) : String :=
  ⟨(((s.data.dropWhile py_ws).reverse.dropWhile py_ws).reverse).map py_lower_char⟩

/-- Python truthiness test `str(x).strip().lower() in {"yes","true","1"}`
used by `score_exercise`; the cell value is modelled as the string Python's
`str` renders it to (`True` ↦ `"True"`, `NaN` ↦ `"nan"`, …). -/
def truthy_flag (did_exercise : String) : Bool :=
  py_strip_lower did_exercise ∈ ["yes", "true", "1"]

/-- Zone normalization in `score_exercise`: a present zone is
stripped/lower-cased, a missing one becomes `"unknown"`. -/
def zone_key (zone : Option String) : String :=
  match zone with
  | none => "unknown"
  | some s => py_strip_lower s

/-- Multiplier lookup `HR_MULTIPLIERS.get(z, HR_MULTIPLIERS["unknown"])`. -/
def hr_multiplier (z : String) : ℚ :=
  match HR_MULTIPLIERS.lookup z with
  | some m => m
  | none => 1

/-- `score_exercise` from `paos/transform/scoring.py`.
`did_exercise` is the raw cell rendered as a string (`"True"`, `"Yes"`, …);
`int(min(50, int(base * mult)))` is `min 50 (py_int (base * mult))`,
nonnegative because `base` and every multiplier are. -/
def score_exercise (did_exercise : String) (minutes : Option ℚ)
    (zone : Option String) : ℕ :=
  if truthy_flag did_exercise then
    let base : ℕ := base_duration_points minutes
    let mult : ℚ := hr_multiplier (zone_key zone)
    (min 50 (py_int ((base : ℚ) * mult))).toNat
  else 0

/-- The `for lo, hi, label in STATUS_BANDS` loop of `classify_status`. -/
def status_lookup : List (ℤ × ℤ × String) → ℤ → String
  | [], _ => "Unknown"
  | (lo, hi, label) :: rest, s => if lo ≤ s ∧ s ≤ hi then label else status_lookup rest s

/-- `classify_status` from `paos/transform/scoring.py`. -/
def classify_status (activity_level : ℤ) : String :=
  status_lookup STATUS_BANDS activity_level

/-- `recommend` from `paos/transform/scoring.py` (status → advisory text). -/
def recommend_status (status : String) : String :=
  if status = "Sedentary" then "Add a 20–30 min walk to increase activity and energy."
  else if status = "Lightly Active" then "Include a moderate session to reach Active status."
  else if status = "Active" then
    "Maintain routine; add variety (strength/mobility) to avoid plateaus."
  else if status = "Very Active" then "Excellent—prioritize recovery (sleep, hydration)."
  else "Log today and aim for consistency."

/-- One input row of the dataframe handed to `enrich`; every optional
column/cell is an `Option` (a column that is absent altogether behaves,
after the ensure-columns step of `enrich`, like an all-`none` column). -/
structure ScoreInRow where
  steps : Option ℚ
  did_exercise : String
  exercise_minutes : Option ℚ
  heart_rate_zone : Option String
  deriving Repr, DecidableEq

/-- One output row of `enrich`. -/
structure ScoreOutRow where
  steps : Option ℚ
  did_exercise : String
  exercise_minutes : Option ℚ
  heart_rate_zone : Option String
  step_points : ℕ
  exercise_points : ℕ
  activity_level : ℤ
  lifestyle_status : String
  recommendation : String
  deriving Repr, DecidableEq

/-- Row-wise body of `enrich` from `paos/transform/scoring.py`:
`activity_level = (step_points + exercise_points).clip(0, 100)`. -/
def enrich_row (r : ScoreInRow) : ScoreOutRow :=
  let sp := score_steps r.steps
  let ep := score_exercise r.did_exercise r.exercise_minutes r.heart_rate_zone
  let lvl : ℤ := max 0 (min 100 ((sp : ℤ) + (ep : ℤ)))
  { steps := r.steps
    did_exercise := r.did_exercise
    exercise_minutes := r.exercise_minutes
    heart_rate_zone := r.heart_rate_zone
    step_points := sp
    exercise_points := ep
    activity_level := lvl
    lifestyle_status := classify_status lvl
    recommendation := recommend_status (classify_status lvl) }

/-- `enrich` from `paos/transform/scoring.py`, applied row-wise. -/
def enrich (df : List ScoreInRow) : List ScoreOutRow :=
  df.map enrich_row

/-! ### Basic facts about the embedding primitives -/

lemma py_int_intCast (n : ℤ) : py_int (n : ℚ) = n := by
  simp [py_int, Int.tdiv_one]

lemma py_int_eq_floor (q : ℚ) (h : 0 ≤ q) : py_int q = ⌊q⌋ := by
  rw [py_int, Rat.floor_def, Int.tdiv_eq_ediv (Rat.num_nonneg.2 h) (by positivity)]

lemma hr_multiplier_eq (zk : String) :
    hr_multiplier zk =
      if zk = "light" then 1/2
      else if zk = "moderate" then 1
      else if zk = "intense" then 3/2
      else if zk = "peak" then 2
      else 1 := by
  by_cases h1 : zk = "light"
  · simp [hr_multiplier, HR_MULTIPLIERS, List.lookup, h1]
  by_cases h2 : zk = "moderate"
  · simp [hr_multiplier, HR_MULTIPLIERS, List.lookup, h2]
  by_cases h3 : zk = "intense"
  · simp [hr_multiplier, HR_MULTIPLIERS, List.lookup, h3]
  by_cases h4 : zk = "peak"
  · simp [hr_multiplier, HR_MULTIPLIERS, List.lookup, h4]
  by_cases h5 : zk = "unknown"
  · simp [hr_multiplier, HR_MULTIPLIERS, List.lookup, h5, h1, h2, h3, h4]
  · simp [hr_multiplier, HR_MULTIPLIERS, List.lookup,
      beq_false_of_ne h1, beq_false_of_ne h2, beq_false_of_ne h3,
      beq_false_of_ne h4, beq_false_of_ne h5, h1, h2, h3, h4]

lemma hr_multiplier_nonneg (zk : String) : 0 ≤ hr_multiplier zk := by
  rw [hr_multiplier_eq]; split_ifs <;> norm_num

/-! ### Claims C2, C3, C4 -/

/-- C2 (counterexample): the claim "every count ≥ 10000 scores 50" fails:
the top `STEP_BANDS` band is `(10000, 10**9, 50)`, so a step count of
`10 ** 9 + 1` falls in no band and `score_steps` returns 0, not 50. -/
theorem C2_counterexample_steps_over_1e9 :
    score_steps (some (1000000001 : ℚ)) = 0 ∧ (10000 : ℤ) ≤ 1000000001 := by
  constructor
  · norm_num [score_steps, py_int, STEP_BANDS, band_lookup]
  · norm_num

/-- C2 (amended): `score_steps` maps [0,4999]→10, [5000,6999]→25,
[7000,9999]→35 and [10000, 10^9]→50; a count above `10^9` (outside every
band) scores 0, and a missing/NaN step count scores 0. -/
theorem C2_score_steps_bands (s : ℤ) :
    (0 ≤ s → s ≤ 4999 → score_steps (some (s : ℚ)) = 10) ∧
    (5000 ≤ s → s ≤ 6999 → score_steps (some (s : ℚ)) = 25) ∧
    (7000 ≤ s → s ≤ 9999 → score_steps (some (s : ℚ)) = 35) ∧
    (10000 ≤ s → s ≤ 10 ^ 9 → score_steps (some (s : ℚ)) = 50) ∧
    (10 ^ 9 < s → score_steps (some (s : ℚ)) = 0) ∧
    score_steps (none : Option ℚ) = 0 := by
  have h : score_steps (some (s : ℚ)) = band_lookup STEP_BANDS s := by
    simp [score_steps, py_int_intCast]
  refine ⟨?_, ?_, ?_, ?_, ?_, rfl⟩ <;>
    · intros
      rw [h]
      simp only [STEP_BANDS, band_lookup]
      norm_num at *
      split_ifs <;> omega

/-- Witness for C2: the band boundaries at 4999 and 10000. -/
theorem C2_score_steps_bands_witness :
    score_steps (some ((4999 : ℤ) : ℚ)) = 10 ∧
    score_steps (some ((10000 : ℤ) : ℚ)) = 50 :=
  ⟨(C2_score_steps_bands 4999).1 (by norm_num) (by norm_num),
   (C2_score_steps_bands 10000).2.2.2.1 (by norm_num) (by norm_num)⟩

/-- C3: for a truthy `did_exercise` cell, `score_exercise` is
`min(50, floor(base_duration_points × intensity_multiplier))` with the
multiplier light=1/2, moderate=1, intense=3/2, peak=2 and 1 for a missing
or unrecognized zone; missing minutes give base 0; for a falsy
`did_exercise` cell the result is 0 regardless of minutes and zone. -/
theorem C3_score_exercise_formula (d : String) (m : Option ℚ) (z : Option String) :
    (truthy_flag d = true →
      score_exercise d m z =
        (min 50 ⌊(base_duration_points m : ℚ) *
          (if zone_key z = "light" then 1/2
           else if zone_key z = "moderate" then 1
           else if zone_key z = "intense" then 3/2
           else if zone_key z = "peak" then 2
           else 1)⌋).toNat) ∧
    base_duration_points none = 0 ∧
    (truthy_flag d = false → score_exercise d m z = 0) := by
  refine ⟨fun ht => ?_, rfl, fun hf => by simp [score_exercise, hf]⟩
  have hnn : (0 : ℚ) ≤ (base_duration_points m : ℚ) * hr_multiplier (zone_key z) :=
    mul_nonneg (by positivity) (hr_multiplier_nonneg _)
  simp only [score_exercise, ht, if_true]
  rw [py_int_eq_floor _ hnn, hr_multiplier_eq]

/-- Witness for C3: 25 minutes in the light zone on a truthy flag gives
`min(50, floor(25 × 1/2)) = 12`; a falsy flag gives 0 despite long, intense
exercise values. -/
theorem C3_score_exercise_witness :
    score_exercise "Yes" (some 25) (some "light") = 12 ∧
    score_exercise "no" (some 120) (some "peak") = 0 := by
  constructor
  · have h := (C3_score_exercise_formula "Yes" (some 25) (some "light")).1 (by decide)
    have hz : zone_key (some "light") = "light" := by decide
    have hb : base_duration_points (some 25) = 25 := by decide
    rw [h, hz, hb]
    norm_num
    rfl
  · exact (C3_score_exercise_formula "no" (some 120) (some "peak")).2.2 (by decide)

/-- C4: every row of the output of `enrich` has
`activity_level = clamp(step_points + exercise_points, 0, 100)`, hence
`activity_level` always lies in [0,100]. -/
theorem C4_activity_level_clamped (df : List ScoreInRow) (r : ScoreOutRow)
    (h : r ∈ enrich df) :
    r.activity_level = max 0 (min 100 ((r.step_points : ℤ) + (r.exercise_points : ℤ))) ∧
    0 ≤ r.activity_level ∧ r.activity_level ≤ 100 := by
  obtain ⟨x, -, rfl⟩ := List.mem_map.1 h
  refine ⟨rfl, le_max_left _ _, ?_⟩
  exact max_le (by norm_num) (le_trans (min_le_left _ _) (by norm_num))

/-- Witness for C4 on a concrete one-row dataframe. -/
theorem C4_activity_level_clamped_witness :
    0 ≤ (enrich_row ⟨some 6500, "No", none, none⟩).activity_level ∧
    (enrich_row ⟨some 6500, "No", none, none⟩).activity_level ≤ 100 := by
  have h := C4_activity_level_clamped [⟨some 6500, "No", none, none⟩]
    (enrich_row ⟨some 6500, "No", none, none⟩) (by simp [enrich])
  exact ⟨h.2.1, h.2.2⟩

/-! ### paos/transform/recommendations.py -/

/-- One row of the dataframe handed to `recommend_series`: the
`activity_level` and `energy_focus` cells as coerced numerics
(`pd.to_numeric(..., errors="coerce")`, `none` = NaN) and the date cell as
a parsed day number (`none` = NaT). -/
structure RecRow where
  activity : Option ℚ
  energy : Option ℚ
  date : Option ℤ
  deriving Repr, DecidableEq

/-- The dataframe for `recommend_series`: per-column existence flags plus
the rows (a cell of an absent column is never read; the flags gate access
exactly as `"col" in df.columns` does). -/
structure RecFrame where
  has_activity : Bool
  has_energy : Bool
  has_date : Bool
  rows : List RecRow
  deriving Repr, DecidableEq

/-- Ordering used by `out.sort_values("date")`: ascending dates,
missing dates (NaT) last. -/
def date_le_b (r1 r2 : RecRow) : Bool :=
  match r1.date, r2.date with
  | some d1, some d2 => decide (d1 ≤ d2)
  | some _, none => true
  | none, some _ => false
  | none, none => true

instance date_le_decidable : DecidableRel (fun r1 r2 => date_le_b r1 r2 = true) :=
  fun _ _ => instDecidableEqBool _ _

/-- `out = out.sort_values("date")` when a date column exists (a stable
sort; ties and NaT placement follow pandas defaults). -/
def sorted_rows (f : RecFrame) : List RecRow :=
  if f.has_date then List.insertionSort (fun r1 r2 => date_le_b r1 r2 = true) f.rows
  else f.rows

/-- Cell accessors over the sorted frame (out-of-range reads are `none`,
matching the NaN produced by `Series.shift`). -/
def aAt (f : RecFrame) (i : ℕ) : Option ℚ := ((sorted_rows f)[i]?).bind (·.activity)

def eAt (f : RecFrame) (i : ℕ) : Option ℚ := ((sorted_rows f)[i]?).bind (·.energy)

def dAt (f : RecFrame) (i : ℕ) : Option ℤ := ((sorted_rows f)[i]?).bind (·.date)

/-- `a.shift(k)` read at row `i`. -/
def aSh (f : RecFrame) (k i : ℕ) : Option ℚ := if k ≤ i then aAt f (i - k) else none

/-- `d.diff()` read at row `i`: the day gap to the previous row, `none`
at row 0 or when either date is NaT. -/
def gap1 (f : RecFrame) (i : ℕ) : Option ℤ :=
  if 1 ≤ i then
    match dAt f i, dAt f (i - 1) with
    | some a, some b => some (a - b)
    | _, _ => none
  else none

/-- `consec_1 = d.diff() == pd.Timedelta(days=1)` (all-`true` when the
frame has no date column at all). -/
def consec1 (f : RecFrame) (i : ℕ) : Bool :=
  if f.has_date then gap1 f i == some 1 else true

/-- `consec_2 = consec_1 & (d.diff().shift(1) == pd.Timedelta(days=1))`
(all-`true` without a date column). -/
def consec2 (f : RecFrame) (i : ℕ) : Bool :=
  consec1 f i && (if f.has_date then gap1 f (i - 1) == some 1 else true)

/-- NaN-rejecting comparisons used by the vectorized masks. -/
def ole (x : Option ℚ) (c : ℚ) : Bool :=
  match x with
  | some v => decide (v ≤ c)
  | none => false

def oge (x : Option ℚ) (c : ℚ) : Bool :=
  match x with
  | some v => decide (c ≤ v)
  | none => false

def ogt (x y : Option ℚ) : Bool :=
  match x, y with
  | some a, some b => decide (b < a)
  | _, _ => false

/-- `downtrend_today = (a.shift(2) > a.shift(1)) & (a.shift(1) > a) & consec_2`. -/
def downtrend_mask (f : RecFrame) (i : ℕ) : Bool :=
  ogt (aSh f 2 i) (aSh f 1 i) && ogt (aSh f 1 i) (aAt f i) && consec2 f i

/-- `sedentary = a <= SEDENTARY_MAX` (`SEDENTARY_MAX = 25`). -/
def sed_mask (f : RecFrame) (i : ℕ) : Bool := ole (aAt f i) 25

/-- `sedentary.shift(k)` read at row `i`. -/
def sedSh (f : RecFrame) (k i : ℕ) : Bool :=
  if k ≤ i then sed_mask f (i - k) else false

/-- `sedentary_streak_2 = sedentary & sedentary.shift(1) & consec_1`. -/
def streak2_mask (f : RecFrame) (i : ℕ) : Bool :=
  sed_mask f i && sedSh f 1 i && consec1 f i

/-- `sedentary_streak_3 = sedentary & sedentary.shift(1) & sedentary.shift(2) & consec_2`. -/
def streak3_mask (f : RecFrame) (i : ℕ) : Bool :=
  sed_mask f i && sedSh f 1 i && sedSh f 2 i && consec2 f i

/-- `pd.Timestamp.weekday` (Monday = 0 … Sunday = 6) of an epoch day
number; day 0 (1970-01-01) is a Thursday. -/
def weekday_of (d : ℤ) : ℤ := (d + 3) % 7

/-- `weekday_sedentary = (weekday <= 4) & (a <= SEDENTARY_MAX)`, only ever
applied when the frame has a date column. -/
def weekday_mask (f : RecFrame) (i : ℕ) : Bool :=
  f.has_date &&
    (match dAt f i with
     | some d => decide (weekday_of d ≤ 4)
     | none => false) &&
    sed_mask f i

/-- `weekend_recovery = weekend & (a >= 70) & (ef <= 2)`, only applied when
both a date and an energy column exist. -/
def weekend_mask (f : RecFrame) (i : ℕ) : Bool :=
  f.has_date && f.has_energy &&
    (match dAt f i with
     | some d => decide (5 ≤ weekday_of d)
     | none => false) &&
    oge (aAt f i) 70 && ole (eAt f i) 2

/-- `bounce_back = consec_1 & ((a - a.shift(1)) >= BOUNCE_BACK_DELTA)`
(`BOUNCE_BACK_DELTA = 20`). -/
def bounce_mask (f : RecFrame) (i : ℕ) : Bool :=
  consec1 f i &&
    (match aAt f i, aSh f 1 i with
     | some x, some y => decide (20 ≤ x - y)
     | _, _ => false)

/-- The fixed message texts of `paos/transform/recommendations.py`. -/
def rec_log_msg : String := "Log activity consistently so PAOS can generate recommendations."

def rec_walk : String := "Add a 20–30 min walk to increase activity and energy."

def rec_moderate : String := "Include a moderate session to reach Active status."

def rec_maintain : String := "Maintain routine; add variety (strength/mobility) to avoid plateaus."

def rec_excellent : String := "Excellent — prioritize recovery (sleep, hydration)."

def rule1_nudge : String :=
  " High effort + low energy — prioritize recovery (sleep, hydration, lighter training)."

def downtrend_nudge : String :=
  " Activity has dipped for 3 days — do a small reset (10–20 min walk) to rebuild momentum."

def streak_2_nudge : String :=
  " Two sedentary days in a row — go for a tiny win today (10–15 min walk) to break the streak."

def streak_3_nudge : String :=
  " Three sedentary days in a row — make it easy: schedule a 20–30 min walk and remove friction (shoes ready, calendar block)."

def weekday_nudge : String :=
  " Weekday dip detected — schedule a short walk (10–20 min) during a fixed slot (lunch/after work)."

def weekend_rec_msg : String :=
  " Weekend recovery tip — keep it light today (easy walk/mobility) and prioritize sleep."

def bounce_msg : String :=
  " Nice bounce-back — great job increasing activity. Keep the streak going with something sustainable tomorrow."

def activity_col_err : String := "recommend_series requires an 'activity_level' column"

/-- `base_recommendation` from `paos/transform/recommendations.py`. -/
def base_recommendation (activity_level : Option ℚ) : String :=
  match activity_level with
  | none => rec_log_msg
  | some level =>
    if level ≤ 25 then rec_walk
    else if level ≤ 50 then rec_moderate
    else if level ≤ 75 then rec_maintain
    else rec_excellent

/-- `recommend` from `paos/transform/recommendations.py` (single-day logic,
Rule #1: high activity + low energy appends a recovery nudge). -/
def recommend_one (activity_level energy_focus : Option ℚ) : String :=
  let msg := base_recommendation activity_level
  match activity_level, energy_focus with
  | some level, some ef => if 70 ≤ level ∧ ef ≤ 2 then msg ++ rule1_nudge else msg
  | _, _ => msg

/-- Row `i`'s final text: the base/Rule-1 message with each triggered trend
nudge appended in the order the code applies them
(Rule #2 downtrend, #3 2-day streak, #6 3-day streak, #4 weekday,
 #5 weekend, #7 bounce-back). -/
def message_at (f : RecFrame) (i : ℕ) : String :=
  recommend_one (aAt f i) (if f.has_energy then eAt f i else none)
    ++ (if downtrend_mask f i then downtrend_nudge else "")
    ++ (if streak2_mask f i then streak_2_nudge else "")
    ++ (if streak3_mask f i then streak_3_nudge else "")
    ++ (if weekday_mask f i then weekday_nudge else "")
    ++ (if weekend_mask f i then weekend_rec_msg else "")
    ++ (if bounce_mask f i then bounce_msg else "")

/-- `recommend_series` from `paos/transform/recommendations.py`: hard
failure without an `activity_level` column, otherwise one message per row
of the date-sorted frame. -/
def recommend_series (f : RecFrame) : Except String (List String) :=
  if f.has_activity then
    .ok ((List.range (sorted_rows f).length).map (message_at f))
  else .error activity_col_err

instance except_deceq {e a : Type} [DecidableEq e] [DecidableEq a] :
    DecidableEq (Except e a) := fun x y =>
  match x, y with
  | .error e1, .error e2 =>
    if h : e1 = e2 then isTrue (by rw [h]) else isFalse (by intro hc; cases hc; exact h rfl)
  | .error _, .ok _ => isFalse (by intro hc; cases hc)
  | .ok _, .error _ => isFalse (by intro hc; cases hc)
  | .ok a1, .ok a2 =>
    if h : a1 = a2 then isTrue (by rw [h]) else isFalse (by intro hc; cases hc; exact h rfl)

/-! ### Claims C1 and C8 -/

/-- The input of the repository's own test
`test_three_day_sedentary_escalation_does_not_also_add_two_day_message`:
dates 2026-01-06/07/08 (epoch days 20459/20460/20461, Tue–Thu),
activity levels 20/15/10, energy 3. -/
def c1_frame : RecFrame :=
  { has_activity := true, has_energy := true, has_date := true,
    rows := [⟨some 20, some 3, some 20459⟩, ⟨some 15, some 3, some 20460⟩,
             ⟨some 10, some 3, some 20461⟩] }

/-- C1: on three consecutive sedentary days the code appends BOTH the 2-day
streak nudge and the 3-day escalation nudge to day 3 (together with the
downtrend and weekday nudges that also fire on this input): the 3-day
message does not supersede the 2-day one, contradicting the claim (and the
repository's own test, which asserts the 2-day text is absent on day 3). -/
theorem C1_day3_contains_both_streak_nudges :
    recommend_series c1_frame =
      .ok [rec_walk ++ weekday_nudge,
           rec_walk ++ streak_2_nudge ++ weekday_nudge,
           rec_walk ++ downtrend_nudge ++ streak_2_nudge ++ streak_3_nudge ++ weekday_nudge] ∧
    streak_2_nudge ≠ "" := by
  constructor
  · have h1 : aAt c1_frame 1 = some 15 := by decide
    have h01 : aSh c1_frame 1 1 = some 20 := by decide
    have h2 : aAt c1_frame 2 = some 10 := by decide
    have h12 : aSh c1_frame 1 2 = some 15 := by decide
    have hb1 : bounce_mask c1_frame 1 = false := by
      rw [bounce_mask, h1, h01]
      have h : ¬ (20 ≤ (15:ℚ) - 20) := by norm_num
      simp [h]
    have hb2 : bounce_mask c1_frame 2 = false := by
      rw [bounce_mask, h2, h12]
      have h : ¬ (20 ≤ (10:ℚ) - 15) := by norm_num
      simp [h]
    have hm0 : message_at c1_frame 0 = rec_walk ++ weekday_nudge := by decide
    have hm1 : message_at c1_frame 1 = rec_walk ++ streak_2_nudge ++ weekday_nudge := by
      rw [message_at, hb1]; decide
    have hm2 : message_at c1_frame 2 =
        rec_walk ++ downtrend_nudge ++ streak_2_nudge ++ streak_3_nudge ++ weekday_nudge := by
      rw [message_at, hb2]; decide
    have hser : recommend_series c1_frame =
        .ok [message_at c1_frame 0, message_at c1_frame 1, message_at c1_frame 2] := rfl
    rw [hser, hm0, hm1, hm2]
  · decide

/-- A frame with an `activity_level` column but neither `date` nor
`energy_focus`, carrying a strict 3-step activity decline. -/
def c8_frame : RecFrame :=
  { has_activity := true, has_energy := false, has_date := false,
    rows := [⟨some 80, none, none⟩, ⟨some 70, none, none⟩, ⟨some 60, none, none⟩] }

/-- C8 (counterexample): without a `date` column the downtrend nudge still
fires (the consecutiveness masks default to all-`true`), so the claim that
none of the downtrend/streak/bounce-back nudges is added is false. -/
theorem C8_counterexample_downtrend_without_date :
    recommend_series c8_frame =
      .ok [rec_excellent, rec_maintain, rec_maintain ++ downtrend_nudge] ∧
    downtrend_nudge ≠ "" := by
  constructor
  · have h1 : aAt c8_frame 1 = some 70 := by decide
    have h01 : aSh c8_frame 1 1 = some 80 := by decide
    have h2 : aAt c8_frame 2 = some 60 := by decide
    have h12 : aSh c8_frame 1 2 = some 70 := by decide
    have hb1 : bounce_mask c8_frame 1 = false := by
      rw [bounce_mask, h1, h01]
      have h : ¬ (20 ≤ (70:ℚ) - 80) := by norm_num
      simp [h]
    have hb2 : bounce_mask c8_frame 2 = false := by
      rw [bounce_mask, h2, h12]
      have h : ¬ (20 ≤ (60:ℚ) - 70) := by norm_num
      simp [h]
    have hm0 : message_at c8_frame 0 = rec_excellent := by decide
    have hm1 : message_at c8_frame 1 = rec_maintain := by
      rw [message_at, hb1]; decide
    have hm2 : message_at c8_frame 2 = rec_maintain ++ downtrend_nudge := by
      rw [message_at, hb2]; decide
    have hser : recommend_series c8_frame =
        .ok [message_at c8_frame 0, message_at c8_frame 1, message_at c8_frame 2] := rfl
    rw [hser, hm0, hm1, hm2]
  · decide

/-- C8 (amended): a missing `activity_level` column aborts the whole call
with an error; a missing `date` column degrades only the weekday and
weekend rules while the consecutiveness masks default to `true` (so
downtrend/streak/bounce-back rules still apply); a missing `energy_focus`
column degrades only the energy-dependent rules (Rule 1's recovery nudge
and the weekend rule) without failing the call. -/
theorem C8_missing_column_semantics (f : RecFrame) :
    (f.has_activity = false → recommend_series f = .error activity_col_err) ∧
    (f.has_activity = true →
      recommend_series f = .ok ((List.range (sorted_rows f).length).map (message_at f)) ∧
      (f.has_date = false → ∀ i : ℕ,
        weekday_mask f i = false ∧ weekend_mask f i = false ∧
        consec1 f i = true ∧ consec2 f i = true) ∧
      (f.has_energy = false → ∀ i : ℕ,
        weekend_mask f i = false ∧
        message_at f i =
          base_recommendation (aAt f i)
            ++ (if downtrend_mask f i then downtrend_nudge else "")
            ++ (if streak2_mask f i then streak_2_nudge else "")
            ++ (if streak3_mask f i then streak_3_nudge else "")
            ++ (if weekday_mask f i then weekday_nudge else "")
            ++ (if bounce_mask f i then bounce_msg else ""))) := by
  refine ⟨fun h => by simp [recommend_series, h], fun h => ?_⟩
  refine ⟨by simp [recommend_series, h], fun hd i => ?_, fun he i => ?_⟩
  · exact ⟨by simp [weekday_mask, hd], by simp [weekend_mask, hd],
      by simp [consec1, hd], by simp [consec2, consec1, hd]⟩
  · refine ⟨by simp [weekend_mask, he], ?_⟩
    have hro : ∀ a : Option ℚ, recommend_one a none = base_recommendation a := by
      intro a; cases a <;> rfl
    rw [message_at, he]
    have hwe : weekend_mask f i = false := by simp [weekend_mask, he]
    simp only [Bool.false_eq_true, if_false, hro, hwe]
    simp [String.append_empty]

/-- Witness for C8 at concrete frames: a frame without `activity_level`
errors out; on `c8_frame` (no date, no energy) the weekday and weekend
rules are off while the consecutiveness masks hold. -/
theorem C8_missing_column_semantics_witness :
    recommend_series ⟨false, false, false, []⟩ = .error activity_col_err ∧
    weekday_mask c8_frame 2 = false ∧ weekend_mask c8_frame 2 = false ∧
    consec2 c8_frame 2 = true :=
  ⟨(C8_missing_column_semantics ⟨false, false, false, []⟩).1 rfl,
   (((C8_missing_column_semantics c8_frame).2 rfl).2.1 rfl 2).1,
   (((C8_missing_column_semantics c8_frame).2 rfl).2.1 rfl 2).2.1,
   (((C8_missing_column_semantics c8_frame).2 rfl).2.1 rfl 2).2.2.2⟩

/-! ### paos/experiments/assign.py -/

/-- One row of the experiment-window spec as returned by
`load_experiment_spec_csv`: dates parsed and normalized, `label` possibly
NA. (Load-time validation guarantees `start_date ≤ end_date`; none of the
claims below needs that invariant.) -/
structure ExperimentSpecRow where
  experiment : String
  phase : String
  label : Option String
  start_date : ℤ
  end_date : ℤ
  deriving Repr, DecidableEq

/-- One row of the daily dataframe handed to `assign_experiments_to_days`:
the raw date cell after `pd.to_datetime(..., errors="coerce").dt.normalize()`
(`none` = failed parse) plus an opaque payload standing for the row's other
columns (used to track row identity through the transform). -/
structure AssignInRow where
  date_raw : Option ℤ
  payload : ℕ
  deriving Repr, DecidableEq

/-- One row of the returned dataframe: normalized date plus the three
experiment columns (initialized to NA). -/
structure AssignedRow where
  date : ℤ
  payload : ℕ
  experiment : Option String
  phase : Option String
  label : Option String
  deriving Repr, DecidableEq

/-- `(out[date_col] >= r["start_date"]) & (out[date_col] <= r["end_date"])`. -/
def window_contains (s : ExperimentSpecRow) (d : ℤ) : Bool :=
  decide (s.start_date ≤ d ∧ d ≤ s.end_date)

/-- One iteration of the spec loop: `out.loc[mask, ...] = ...` for a single
spec row (the code's `if mask.any():` guard only skips a no-op write, so it
is behaviorally the identity we model). -/
def apply_spec_row (s : ExperimentSpecRow) (rows : List AssignedRow) : List AssignedRow :=
  rows.map fun r =>
    if window_contains s r.date then
      { r with experiment := some s.experiment, phase := some s.phase, label := s.label }
    else r

/-- `assign_experiments_to_days` from `paos/experiments/assign.py`:
normalize dates, drop rows whose date failed to parse (`dropna` +
`reset_index(drop=True)`), initialize the experiment columns to NA, then
apply every spec row in order (later rows overriding earlier ones). -/
def assign_experiments_to_days (df : List AssignInRow)
    (spec : List ExperimentSpecRow) : List AssignedRow :=
  let parsed := df.filterMap fun r =>
    r.date_raw.map fun d =>
      ({ date := d, payload := r.payload,
         experiment := none, phase := none, label := none } : AssignedRow)
  spec.foldl (fun acc s => apply_spec_row s acc) parsed

/-- The spec's description of the override rule, stated independently of
the loop: the LAST spec row (in declaration order) whose inclusive window
contains the date. -/
def last_matching_window (spec : List ExperimentSpecRow) (d : ℤ) :
    Option ExperimentSpecRow :=
  spec.reverse.find? (fun s => window_contains s d)

/-- The effect of the whole spec loop on one row, phrased by the spec's
override rule. -/
def assigned_by (spec : List ExperimentSpecRow) (r0 : AssignedRow) : AssignedRow :=
  match last_matching_window spec r0.date with
  | some s => { r0 with experiment := some s.experiment, phase := some s.phase, label := s.label }
  | none => r0

lemma assigned_by_date (spec : List ExperimentSpecRow) (r0 : AssignedRow) :
    (assigned_by spec r0).date = r0.date := by
  unfold assigned_by
  cases last_matching_window spec r0.date <;> rfl

lemma apply_spec_row_getElem (s : ExperimentSpecRow) (rows : List AssignedRow) (i : ℕ) :
    (apply_spec_row s rows)[i]? = (rows[i]?).map (fun r =>
      if window_contains s r.date then
        { r with experiment := some s.experiment, phase := some s.phase, label := s.label }
      else r) := by
  simp [apply_spec_row]

lemma assign_fold_getElem (spec : List ExperimentSpecRow) (rows : List AssignedRow)
    (i : ℕ) (r0 : AssignedRow) (h : rows[i]? = some r0) :
    (spec.foldl (fun acc s => apply_spec_row s acc) rows)[i]? =
      some (assigned_by spec r0) := by
  induction spec using List.reverseRecOn with
  | nil => simpa [assigned_by, last_matching_window] using h
  | append_singleton l a ih =>
    rw [List.foldl_append, List.foldl_cons, List.foldl_nil, apply_spec_row_getElem, ih]
    have hdate : (assigned_by l r0).date = r0.date := assigned_by_date l r0
    by_cases hc : window_contains a r0.date = true
    · have hlm : last_matching_window (l ++ [a]) r0.date = some a := by
        simp [last_matching_window, List.find?, hc]
      unfold assigned_by
      rw [hlm]
      cases hl : last_matching_window l r0.date <;>
        simp [assigned_by, Option.map, hl, hdate, hc]
    · have hcf : window_contains a r0.date = false := by simpa using hc
      have hlm : last_matching_window (l ++ [a]) r0.date =
          last_matching_window l r0.date := by
        simp [last_matching_window, List.find?, hcf]
      unfold assigned_by
      rw [hlm]
      cases hl : last_matching_window l r0.date <;>
        simp [assigned_by, Option.map, hl, hdate, hcf]

lemma apply_spec_row_length (s : ExperimentSpecRow) (rows : List AssignedRow) :
    (apply_spec_row s rows).length = rows.length := by
  simp [apply_spec_row]

lemma assign_fold_length (spec : List ExperimentSpecRow) (rows : List AssignedRow) :
    (spec.foldl (fun acc s => apply_spec_row s acc) rows).length = rows.length := by
  induction spec generalizing rows with
  | nil => rfl
  | cons a l ih => rw [List.foldl_cons, ih, apply_spec_row_length]

/-- C5: every surviving row of `assign_experiments_to_days` carries the
experiment/phase/label of the LAST spec row (in declaration order) whose
inclusive [start_date, end_date] window contains its date, and keeps all
three columns null when no window matches. -/
theorem C5_last_window_wins (df : List AssignInRow) (spec : List ExperimentSpecRow)
    (i : ℕ) (r : AssignedRow)
    (h : (assign_experiments_to_days df spec)[i]? = some r) :
    (∀ s, last_matching_window spec r.date = some s →
        r.experiment = some s.experiment ∧ r.phase = some s.phase ∧ r.label = s.label) ∧
    (last_matching_window spec r.date = none →
        r.experiment = none ∧ r.phase = none ∧ r.label = none) := by
  unfold assign_experiments_to_days at h
  set parsed := df.filterMap (fun r =>
    r.date_raw.map fun d =>
      ({ date := d, payload := r.payload,
         experiment := none, phase := none, label := none } : AssignedRow)) with hparsed
  have hi : i < parsed.length := by
    by_contra hge
    rw [List.getElem?_eq_none] at h
    · cases h
    · rw [assign_fold_length]; omega
  obtain ⟨r0, hr0⟩ : ∃ r0, parsed[i]? = some r0 :=
    ⟨parsed[i], List.getElem?_eq_getElem hi⟩
  have hfold := assign_fold_getElem spec parsed i r0 hr0
  rw [hfold] at h
  have hr : r = assigned_by spec r0 := by injection h.symm
  have hmem : r0 ∈ parsed := List.getElem?_mem hr0
  have hinit : r0.experiment = none ∧ r0.phase = none ∧ r0.label = none := by
    rw [hparsed] at hmem
    obtain ⟨x, -, hx⟩ := List.mem_filterMap.1 hmem
    obtain ⟨d, -, hd⟩ := Option.map_eq_some'.1 hx
    rw [← hd]
    exact ⟨rfl, rfl, rfl⟩
  have hdate : r.date = r0.date := by rw [hr]; exact assigned_by_date spec r0
  constructor
  · intro s hs
    rw [hdate] at hs
    rw [hr]
    unfold assigned_by
    rw [hs]
    exact ⟨rfl, rfl, rfl⟩
  · intro hs
    rw [hdate] at hs
    rw [hr]
    unfold assigned_by
    rw [hs]
    exact hinit

lemma apply_spec_row_id_map (s : ExperimentSpecRow) (rows : List AssignedRow) :
    ((apply_spec_row s rows).map fun r => (r.date, r.payload)) =
      rows.map fun r => (r.date, r.payload) := by
  induction rows with
  | nil => rfl
  | cons x xs ih =>
    by_cases h : window_contains s x.date = true <;>
      · simp only [apply_spec_row, List.map_cons] at ih ⊢
        simp [h, ih]

lemma assign_fold_id_map (spec : List ExperimentSpecRow) (rows : List AssignedRow) :
    ((spec.foldl (fun acc s => apply_spec_row s acc) rows).map fun r => (r.date, r.payload)) =
      rows.map fun r => (r.date, r.payload) := by
  induction spec generalizing rows with
  | nil => rfl
  | cons a l ih => rw [List.foldl_cons, ih, apply_spec_row_id_map]

lemma assign_parsed_length (df : List AssignInRow) :
    (df.filterMap (fun r => r.date_raw.map (fun d => ({ date := d, payload := r.payload, experiment := none, phase := none, label := none } : AssignedRow)))).length =
    (df.filter fun r => r.date_raw.isSome).length := by
  induction df with
  | nil => rfl
  | cons x xs ih =>
    cases hx : x.date_raw <;> simp [List.filterMap_cons, List.filter_cons, hx, ih]

/-- C10: `assign_experiments_to_days` silently drops exactly the rows whose
date failed to parse: the output rows are, in order, the parseable input
rows (identified by date and payload), its length is the number of
parseable rows, and never exceeds the input length. -/
theorem C10_unparsable_dates_dropped (df : List AssignInRow) (spec : List ExperimentSpecRow) :
    ((assign_experiments_to_days df spec).map fun r => (r.date, r.payload)) =
      df.filterMap (fun r => r.date_raw.map fun d => (d, r.payload)) ∧
    (assign_experiments_to_days df spec).length =
      (df.filter fun r => r.date_raw.isSome).length ∧
    (assign_experiments_to_days df spec).length ≤ df.length := by
  have h1 : ((assign_experiments_to_days df spec).map fun r => (r.date, r.payload)) =
      df.filterMap (fun r => r.date_raw.map fun d => (d, r.payload)) := by
    unfold assign_experiments_to_days
    rw [assign_fold_id_map, List.map_filterMap]
    congr 1
    funext r
    cases hr : r.date_raw <;> simp [hr]
  have h2 : (assign_experiments_to_days df spec).length =
      (df.filter fun r => r.date_raw.isSome).length := by
    unfold assign_experiments_to_days
    rw [assign_fold_length, assign_parsed_length]
  exact ⟨h1, h2, h2 ▸ List.length_filter_le _ _⟩

def c5_spec : List ExperimentSpecRow :=
  [⟨"expA", "control", some "first", 0, 10⟩, ⟨"expB", "treatment", none, 3, 7⟩]

def c5_df : List AssignInRow := [⟨some 5, 0⟩]

def c5_row : AssignedRow := ⟨5, 0, some "expB", some "treatment", none⟩

/-- Witness for C5: day 5 falls in both declared windows; the later row
(`expB`/treatment) wins. -/
theorem C5_last_window_wins_witness :
    (assign_experiments_to_days c5_df c5_spec)[0]? = some c5_row ∧
    c5_row.experiment = some "expB" ∧ c5_row.phase = some "treatment" ∧
    c5_row.label = none := by
  have hasn : (assign_experiments_to_days c5_df c5_spec)[0]? = some c5_row := by decide
  have hth := C5_last_window_wins c5_df c5_spec 0 c5_row hasn
  have hlm : last_matching_window c5_spec c5_row.date =
      some ⟨"expB", "treatment", none, 3, 7⟩ := by decide
  obtain ⟨h1, h2, h3⟩ := hth.1 _ hlm
  exact ⟨hasn, h1, h2, h3⟩

/-! ### paos/benchmarks/compare.py -/

/-- `_approx_percentile_from_cutpoints` from `paos/benchmarks/compare.py`,
with `NaN` as `none` and float arithmetic as exact rationals (every branch
relevant to the claims is exact in IEEE floats as well, since `x / x = 1`
exactly for finite nonzero `x`). -/
def approx_percentile_from_cutpoints (value p25 p50 p75 p90 : ℚ) : Option ℚ :=
  if ¬(p25 ≤ p50 ∧ p50 ≤ p75 ∧ p75 ≤ p90) then none
  else if value ≤ p25 then
    if p25 = 0 then some 0
    else some (max 0 (min 25 (25 * (value / p25))))
  else if value ≤ p50 then
    if p50 = p25 then some 37.5
    else some (25 + 25 * ((value - p25) / (p50 - p25)))
  else if value ≤ p75 then
    if p75 = p50 then some 62.5
    else some (50 + 25 * ((value - p50) / (p75 - p50)))
  else if value ≤ p90 then
    if p90 = p75 then some 82.5
    else some (75 + 15 * ((value - p75) / (p90 - p75)))
  else if p90 ≤ 0 then some 90
  else some (max 90 (min 100 (90 + 10 * min 1 ((value - p90) / p90))))

/-- C7: with strictly increasing cut-points, a value exactly at `p50`
returns exactly 50 and a value exactly at `p90` returns exactly 90 (each
boundary belongs to the lower segment via the `<=` checks). -/
theorem C7_percentile_boundary_ownership (p25 p50 p75 p90 : ℚ)
    (h1 : p25 < p50) (h2 : p50 < p75) (h3 : p75 < p90) :
    approx_percentile_from_cutpoints p50 p25 p50 p75 p90 = some 50 ∧
    approx_percentile_from_cutpoints p90 p25 p50 p75 p90 = some 90 := by
  constructor
  · rw [approx_percentile_from_cutpoints,
      if_neg (not_not_intro ⟨h1.le, h2.le, h3.le⟩),
      if_neg (not_le.2 h1), if_pos le_rfl, if_neg (ne_of_gt h1),
      div_self (sub_ne_zero.2 (ne_of_gt h1))]
    norm_num
  · rw [approx_percentile_from_cutpoints,
      if_neg (not_not_intro ⟨h1.le, h2.le, h3.le⟩),
      if_neg (not_le.2 (h1.trans (h2.trans h3))),
      if_neg (not_le.2 (h2.trans h3)),
      if_neg (not_le.2 h3), if_pos le_rfl, if_neg (ne_of_gt h3),
      div_self (sub_ne_zero.2 (ne_of_gt h3))]
    norm_num

/-- Witness for C7 at the concrete cut-points 10 < 20 < 30 < 40. -/
theorem C7_percentile_boundary_ownership_witness :
    approx_percentile_from_cutpoints 20 10 20 30 40 = some 50 ∧
    approx_percentile_from_cutpoints 40 10 20 30 40 = some 90 :=
  C7_percentile_boundary_ownership 10 20 30 40 (by norm_num) (by norm_num) (by norm_num)

/-! ### paos/experiments/effects.py -/

/-- State of a NumPy generator. `np.random.default_rng(seed)` builds a
PCG64 generator whose entire output stream is a pure function of `seed`;
the concrete step used here is a 64-bit LCG standing in for PCG64 (the
claims below depend only on the stream being a function of the seed, not
on its values). -/
structure NpRng where
  state : ℕ
  deriving Repr, DecidableEq

/-- `np.random.default_rng(seed)`. -/
def np_default_rng (seed : ℕ) : NpRng := ⟨seed % 2 ^ 64⟩

/-- One 64-bit draw. -/
def np_rng_next (g : NpRng) : ℕ × NpRng :=
  let s := (6364136223846793005 * g.state + 1442695040888963407) % 2 ^ 64
  (s, ⟨s⟩)

/-- `rng.choice(vals, size=len(vals), replace=True)`: `len(vals)` uniform
index draws with replacement. -/
def np_choice (g : NpRng) (vals : List ℚ) : List ℚ × NpRng :=
  let n := vals.length
  (List.range n).foldl
    (fun (acc : List ℚ × NpRng) _ =>
      let (r, g') := np_rng_next acc.2
      (acc.1 ++ [vals.getD (r % n) 0], g'))
    ([], g)

/-- `np.quantile(xs, p)` with the default linear interpolation method. -/
def np_quantile (xs : List ℚ) (p : ℚ) : ℚ :=
  let sorted := List.insertionSort (· ≤ ·) xs
  let n := sorted.length
  if n = 0 then 0
  else
    let h : ℚ := p * ((n : ℚ) - 1)
    let i : ℕ := (Int.floor h).toNat
    let lo := sorted.getD i 0
    let hi := sorted.getD (min (i + 1) (n - 1)) 0
    lo + (h - (i : ℚ)) * (hi - lo)

/-- `_bootstrap_delta_ci` from `paos/experiments/effects.py`: `(nan, nan)`
(modelled `(none, none)`) when either group has fewer than 2 samples or
`n_boot <= 0`; a `ValueError` when `ci` is outside (0,1); otherwise
`n_boot` paired resampled deltas and their empirical quantiles. -/
def bootstrap_delta_ci (control_vals treat_vals : List ℚ) (n_boot : ℕ)
    (ci : ℚ) (seed : ℕ) : Except String (Option ℚ × Option ℚ) :=
  if control_vals.length < 2 ∨ treat_vals.length < 2 then .ok (none, none)
  else if n_boot = 0 then .ok (none, none)
  else if ¬(0 < ci ∧ ci < 1) then .error "ci must be between 0 and 1 (exclusive)."
  else
    let g0 := np_default_rng seed
    let deltas :=
      ((List.range n_boot).foldl
        (fun (acc : List ℚ × NpRng) _ =>
          let (c, g1) := np_choice acc.2 control_vals
          let (t, g2) := np_choice g1 treat_vals
          (acc.1 ++ [(rat_mean t).getD 0 - (rat_mean c).getD 0], g2))
        ([], g0)).1
    let alpha := (1 - ci) / 2
    .ok (some (np_quantile deltas alpha), some (np_quantile deltas (1 - alpha)))

/-- One row of the dataframe handed to `compute_experiment_effects`: the
experiment and phase cells plus the metric cells keyed by column name
(the cells' numeric coercion `pd.to_numeric(..., errors="coerce")` is
already folded into `Option ℚ`). -/
structure EffRow where
  experiment : Option String
  phase : Option String
  vals : List (String × Option ℚ)
  deriving Repr, DecidableEq

/-- The dataframe: its column list (for the missing-column checks) and
rows. -/
structure EffFrame where
  cols : List String
  rows : List EffRow
  deriving Repr, DecidableEq

/-- One output row (`ExperimentEffectRow` fields; NaN as `none`). -/
structure EffOut where
  experiment : String
  metric : String
  n_control : ℕ
  n_treatment : ℕ
  control_mean : Option ℚ
  treatment_mean : Option ℚ
  delta : Option ℚ
  delta_ci_low : Option ℚ
  delta_ci_high : Option ℚ
  n_boot : ℕ
  deriving Repr, DecidableEq

/-- Read one metric cell. -/
def eff_get (r : EffRow) (m : String) : Option ℚ :=
  match r.vals.lookup m with
  | some v => v
  | none => none

/-- `_coerce_bool_phase`: `astype(str)` renders a missing phase as the
string `"nan"`, then strip + lower-case. -/
def phase_norm (p : Option String) : String :=
  py_strip_lower (match p with | some s => s | none => "nan")

/-- Per-(experiment, metric) body of the loop in
`compute_experiment_effects`. -/
def eff_cell (g_control g_treat : List EffRow) (exp metric : String)
    (add_ci : Bool) (n_boot : ℕ) (ci : ℚ) (seed : ℕ) : Except String EffOut :=
  let control_vals := g_control.filterMap (fun r => eff_get r metric)
  let treat_vals := g_treat.filterMap (fun r => eff_get r metric)
  let n_control := control_vals.length
  let n_treatment := treat_vals.length
  let control_mean := rat_mean control_vals
  let treatment_mean := rat_mean treat_vals
  let delta := match treatment_mean, control_mean with
    | some t, some c => some (t - c)
    | _, _ => none
  if add_ci ∧ 2 ≤ n_control ∧ 2 ≤ n_treatment then
    (bootstrap_delta_ci control_vals treat_vals n_boot ci seed).map fun lohi =>
      { experiment := exp, metric := metric, n_control := n_control,
        n_treatment := n_treatment, control_mean := control_mean,
        treatment_mean := treatment_mean, delta := delta,
        delta_ci_low := lohi.1, delta_ci_high := lohi.2, n_boot := n_boot }
  else
    .ok { experiment := exp, metric := metric, n_control := n_control,
          n_treatment := n_treatment, control_mean := control_mean,
          treatment_mean := treatment_mean, delta := delta,
          delta_ci_low := none, delta_ci_high := none, n_boot := 0 }

/-- `compute_experiment_effects` from `paos/experiments/effects.py`.
`ambient_entropy` models process-global random state a run might observe
(e.g. the global NumPy generator): the code never reads it — its generator
is constructed from `seed` alone — so the parameter is unused. Column
names are fixed to the row fields; `groupby` sorts its unique keys. -/
def compute_experiment_effects (ambient_entropy : ℕ → ℕ) (df : EffFrame)
    (experiment_col phase_col : String) (metrics : List String)
    (control_label treatment_label : String) (add_ci : Bool) (n_boot : ℕ)
    (ci : ℚ) (seed : ℕ) : Except String (List EffOut) :=
  if df.rows.isEmpty then .ok []
  else if experiment_col ∉ df.cols then
    .error ("Missing required column: " ++ experiment_col)
  else if phase_col ∉ df.cols then
    .error ("Missing required column: " ++ phase_col)
  else if metrics.any (fun m => m ∉ df.cols) then
    .error "Missing required metric columns"
  else
    let work0 := df.rows.map (fun r => { r with phase := some (phase_norm r.phase) })
    let work1 := work0.filter (fun r => r.experiment.isSome)
    let work2 := work1.filter (fun r => 0 < (r.experiment.getD "").length)
    let work := work2.filter (fun r =>
      r.phase = some control_label ∨ r.phase = some treatment_label)
    if work.isEmpty then .ok []
    else
      let keys := List.insertionSort (· ≤ ·) (work.filterMap (·.experiment)).dedup
      (keys.mapM (fun exp =>
        let g := work.filter (fun r => r.experiment = some exp)
        let g_control := g.filter (fun r => r.phase = some control_label)
        let g_treat := g.filter (fun r => r.phase = some treatment_label)
        metrics.mapM (fun metric =>
          eff_cell g_control g_treat exp metric add_ci n_boot ci seed))).map
        List.flatten

/-- C6: `compute_experiment_effects` is deterministic in its inputs and
seed: two runs under arbitrary (and arbitrarily different) ambient process
randomness return identical results — in particular identical
`delta_ci_low`/`delta_ci_high` — because the bootstrap generator is
constructed from the explicit `seed` alone. -/
theorem C6_effects_deterministic_in_seed (amb1 amb2 : ℕ → ℕ) (df : EffFrame)
    (experiment_col phase_col : String) (metrics : List String)
    (control_label treatment_label : String) (add_ci : Bool) (n_boot : ℕ)
    (ci : ℚ) (seed : ℕ) :
    compute_experiment_effects amb1 df experiment_col phase_col metrics
        control_label treatment_label add_ci n_boot ci seed =
      compute_experiment_effects amb2 df experiment_col phase_col metrics
        control_label treatment_label add_ci n_boot ci seed := rfl

/-! ### paos/insights/engine.py (with paos/insights/redact.py folded in) -/

/-- One row of the dataframe handed to `generate_insights`, with the
numeric coercions (`pd.to_numeric(..., errors="coerce")`) folded into
`Option ℚ` and the date cell as a parsed day number. -/
structure InsightRow where
  date : Option ℤ
  activity : Option ℚ
  energy : Option ℚ
  did_exercise : Option String
  deriving Repr, DecidableEq

/-- The dataframe: column-existence flags plus rows (default column names
`date`/`activity_level`/`energy_focus`/`did_exercise`). -/
structure InsightFrame where
  has_date : Bool
  has_activity : Bool
  has_energy : Bool
  has_did_exercise : Bool
  rows : List InsightRow
  deriving Repr, DecidableEq

/-- `InsightEngineConfig` (week_mode default true, min_days default 7;
col names fixed to the defaults). -/
structure InsightEngineConfig where
  week_mode : Bool := true
  min_days : ℕ := 7
  deriving Repr, DecidableEq

/-- The ISO week bucket of a day, represented by the Monday of its week:
two dates get the same `"YYYY-Www"` key from `redact_dataframe` exactly
when they share this Monday, and the string keys sort in the same order as
these day numbers. -/
def iso_week_key (d : ℤ) : ℤ := d - weekday_of d

/-- The non-missing (activity, energy) pairs:
`safe[[activity_col, energy_col]].dropna()`. -/
def insight_pairs (df : InsightFrame) : List (ℚ × ℚ) :=
  df.rows.filterMap (fun r =>
    match r.activity, r.energy with
    | some a, some e => some (a, e)
    | _, _ => none)

/-- `pd.notna(tmp[act].corr(tmp[energy]))` over exact arithmetic: the
Pearson correlation is defined iff both columns have nonzero variance
(`n·Σx² − (Σx)² ≠ 0`, similarly for y). -/
def pearson_defined (pairs : List (ℚ × ℚ)) : Bool :=
  let n : ℚ := pairs.length
  let sx := (pairs.map (·.1)).sum
  let sy := (pairs.map (·.2)).sum
  let sxx := (pairs.map (fun p => p.1 * p.1)).sum
  let syy := (pairs.map (fun p => p.2 * p.2)).sum
  decide (n * sxx - sx * sx ≠ 0) && decide (n * syy - sy * sy ≠ 0)

/-- The non-missing (did_exercise, energy) pairs:
`safe[[did_exercise_col, energy_col]].dropna()`. -/
def insight_ex_pairs (df : InsightFrame) : List (String × ℚ) :=
  df.rows.filterMap (fun r =>
    match r.did_exercise, r.energy with
    | some d, some e => some (d, e)
    | _, _ => none)

/-- `generate_insights` from `paos/insights/engine.py`, restricted to the
emitted insight keys (message text, numeric values and severities are
formatting of the same gated statistics and are elided). `redact_dataframe`
is folded in: it drops `notes`, optionally replaces `date` by the ISO week
key, and never changes the row count. -/
def generate_insights (df : InsightFrame) (cfg : InsightEngineConfig) : List String :=
  if df.rows.isEmpty then ["no_data"]
  else
    let has_week := cfg.week_mode && df.has_date
    let low_cov : List String :=
      if df.rows.length < cfg.min_days then ["low_coverage"] else []
    let i1 : List String :=
      if cfg.week_mode && has_week && df.has_activity &&
          df.rows.any (fun r => r.date.isSome && r.activity.isSome) then
        ["weekly_activity_avg"]
      else []
    let pairs := insight_pairs df
    let i2 : List String :=
      if df.has_activity && df.has_energy &&
          decide (max cfg.min_days 5 ≤ pairs.length) && pearson_defined pairs then
        ["activity_energy_corr"]
      else []
    let trips := insight_ex_pairs df
    let ex_energy := (trips.filter (fun x => truthy_flag x.1)).map (·.2)
    let rest_energy := (trips.filter (fun x => !truthy_flag x.1)).map (·.2)
    let i3 : List String :=
      if df.has_did_exercise && df.has_energy &&
          decide (max cfg.min_days 5 ≤ trips.length) &&
          decide (2 ≤ ex_energy.length) && decide (2 ≤ rest_energy.length) then
        ["exercise_energy_delta"]
      else []
    let insights := low_cov ++ i1 ++ i2 ++ i3
    if insights.isEmpty then ["no_insights"] else insights

/-- A frame with exactly 5 complete (activity, energy) pairs and no other
columns. -/
def c9_frame : InsightFrame :=
  { has_date := false, has_activity := true, has_energy := true,
    has_did_exercise := false,
    rows := [⟨none, some 1, some 1, none⟩, ⟨none, some 2, some 2, none⟩,
             ⟨none, some 3, some 3, none⟩, ⟨none, some 4, some 4, none⟩,
             ⟨none, some 5, some 5, none⟩] }

/-- C9 (counterexample): 5 non-missing paired samples do NOT emit the
correlation insight under the default configuration (min_days = 7): the
gate is `len(tmp) >= max(cfg.min_days, 5)` = 7, so the output is only the
low-coverage warning. -/
theorem C9_counterexample_five_pairs : generate_insights c9_frame ⟨true, 7⟩ =
    ["low_coverage"] ∧ 5 ≤ (insight_pairs c9_frame).length := by
  constructor <;> decide

lemma key_mem_ite (C B : List String) (x : String) :
    x ∈ (if ((C ++ [x]) ++ B).isEmpty = true then ["no_insights"]
         else (C ++ [x]) ++ B) := by
  have h : ((C ++ [x]) ++ B).isEmpty = false := by cases C <;> simp
  simp [h, List.mem_append]

/-- C9 (amended): the activity-versus-energy correlation insight is
emitted whenever the number of non-missing paired samples reaches
`max(min_days, 5)` (7 under the default configuration) and the Pearson
correlation is defined (both columns non-constant). -/
theorem C9_corr_insight_emission (df : InsightFrame) (cfg : InsightEngineConfig)
    (ha : df.has_activity = true) (he : df.has_energy = true)
    (hn : max cfg.min_days 5 ≤ (insight_pairs df).length)
    (hp : pearson_defined (insight_pairs df) = true) :
    "activity_energy_corr" ∈ generate_insights df cfg := by
  have hne : df.rows.isEmpty = false := by
    have h5 : 5 ≤ (insight_pairs df).length := le_trans (le_max_right _ _) hn
    cases hr : df.rows with
    | nil => rw [insight_pairs, hr] at h5; simp at h5
    | cons x xs => rfl
  have hg : decide (max cfg.min_days 5 ≤ (insight_pairs df).length) = true :=
    decide_eq_true hn
  unfold generate_insights
  simp only [hne, Bool.false_eq_true, if_false, ha, he, hp, hg, Bool.true_and,
    Bool.and_true, if_true]
  exact key_mem_ite _ _ _

def c9w_frame : InsightFrame :=
  { has_date := false, has_activity := true, has_energy := true,
    has_did_exercise := false,
    rows := [⟨none, some 1, some 1, none⟩, ⟨none, some 2, some 2, none⟩,
             ⟨none, some 3, some 3, none⟩, ⟨none, some 4, some 4, none⟩,
             ⟨none, some 5, some 5, none⟩, ⟨none, some 6, some 6, none⟩,
             ⟨none, some 7, some 7, none⟩] }

/-- Witness for C9 on a 7-row frame with non-constant paired columns. -/
theorem C9_corr_insight_emission_witness :
    "activity_energy_corr" ∈ generate_insights c9w_frame ⟨true, 7⟩ := by
  apply C9_corr_insight_emission c9w_frame ⟨true, 7⟩ rfl rfl
  · decide
  · have hpair : insight_pairs c9w_frame =
        [(1,1),(2,2),(3,3),(4,4),(5,5),(6,6),(7,7)] := by decide
    rw [hpair]
    norm_num [pearson_defined, Bool.and_eq_true, decide_eq_true_eq]
